import Mathlib

/-!
Verification of the multi-source alert unification engine of the SenseSafe
admin dashboard.  The definitions below are a shallow embedding of the
JavaScript source:

* `getAllAlertsForAdmin` embeds the aggregator of the same name in
  `services/api.js`: it takes the three per-source fetch outcomes
  (`Option` models a settled promise: `none` is a rejected fetch or a
  response without the expected array, `some l` a fulfilled fetch), maps
  each raw record through the corresponding inline adapter
  (`formatMessage`, `formatSOS`, `formatIncident`), concatenates, sorts
  descending by `created_at` (JavaScript `Array.prototype.sort` is
  stable, embedded as a stable insertion sort), and folds the stats.
* `handleResolve`, `handleMarkRead` and `fetchAlertsComplete` embed the
  success paths of the handlers in `pages/AdminActions.jsx`, with the
  backend mutation calls they issue made explicit as a returned list.
* `pollStep` embeds the effect of the polling in `App.jsx`: the interval
  fires `fetchData` with no in-flight guard, and every completed fetch
  applies its result to component state unconditionally.

JavaScript `undefined` for an absent field is embedded as `none`;
truthiness coercions (`Boolean(x)`, `x || d`) are embedded explicitly.
-/

/-- Embeds `Boolean(x)` applied to a possibly absent boolean field. -/
def jsBool : Option Bool → Bool
  | none => false
  | some b => b

/-- Embeds the JavaScript string default `x || d`: an absent field and the
empty string are both falsy, so both fall back to the default. -/
def jsOrStr : Option String → String → String
  | none, d => d
  | some s, d => if s = "" then d else s

/-- Embeds the JavaScript numeric default `n || d`: `0` is falsy, so it
falls back to the default. -/
def jsOrNat (n d : Nat) : Nat :=
  if n = 0 then d else n

/-- Raw record of `GET /api/messages/admin/all` (fields per the backend
response format documented above `getAllAlertsForAdmin`: id, user_id,
user_name, message_type, title, content, is_read, created_at). -/
structure RawMessage where
  id : String
  user_id : String
  user_name : Option String
  message_type : Option String
  title : Option String
  content : Option String
  is_read : Option Bool
  created_at : Nat
  deriving Repr, DecidableEq

/-- Raw record of `GET /api/sos/user` (id, user_id, ability, lat, lng,
battery, status, created_at). -/
structure RawSOS where
  id : String
  user_id : String
  ability : Option String
  lat : Option Int
  lng : Option Int
  battery : Option Nat
  status : String
  created_at : Nat
  deriving Repr, DecidableEq

/-- Raw record of `GET /api/incidents/user` (id, user_id, type,
description, lat, lng, risk_level, risk_score, status, image_url,
created_at). -/
structure RawIncident where
  id : String
  user_id : String
  type : String
  description : Option String
  lat : Option Int
  lng : Option Int
  risk_level : Option String
  risk_score : Option Nat
  status : String
  image_url : Option String
  created_at : Nat
  deriving Repr, DecidableEq

/-- One element of the unified `allItems` feed built by
`getAllAlertsForAdmin`.  A field is `Option` when at least one of the
three adapters can leave it `undefined`. -/
structure FormattedAlert where
  id : String
  message_type : Option String
  sourceType : String
  user_name : Option String
  user_id : String
  title : Option String
  content : Option String
  category : Option String
  description : Option String
  ability : Option String
  battery : Option Nat
  lat : Option Int
  lng : Option Int
  severity : Option String
  risk_score : Option Nat
  risk_level : Option String
  is_read : Bool
  created_at : Nat
  status : Option String
  image_url : Option String
  backendId : Option String
  deriving Repr, DecidableEq

/-- The `formattedMessages` mapping: spread of the raw message (so only
the fields present on a raw message survive; `severity`, `status` and
`_backendId` stay undefined), original id kept, `sourceType` set to
MESSAGE, and `is_read` coerced with `Boolean(...)`. -/
def formatMessage (msg : RawMessage) : FormattedAlert where
  id := msg.id
  message_type := msg.message_type
  sourceType := "MESSAGE"
  user_name := msg.user_name
  user_id := msg.user_id
  title := msg.title
  content := msg.content
  category := none
  description := none
  ability := none
  battery := none
  lat := none
  lng := none
  severity := none
  risk_score := none
  risk_level := none
  is_read := jsBool msg.is_read
  created_at := msg.created_at
  status := none
  image_url := none
  backendId := none

/-- The `formattedSOS` mapping: every field synthesized; `is_read` is
derived as `sos.status === SAFE`; `_backendId` is the upstream id. -/
def formatSOS (sos : RawSOS) : FormattedAlert where
  id := sos.id
  message_type := some "SOS"
  sourceType := "SOS"
  user_name := some "Unknown User"
  user_id := sos.user_id
  title := some ("SOS Alert (" ++ jsOrStr sos.ability "Unknown" ++ ")")
  content := some ("Emergency SOS - Status: " ++ sos.status)
  category := none
  description := none
  ability := some (jsOrStr sos.ability "NONE")
  battery := sos.battery
  lat := sos.lat
  lng := sos.lng
  severity := some "critical"
  risk_score := none
  risk_level := none
  is_read := sos.status == "SAFE"
  created_at := sos.created_at
  status := some sos.status
  image_url := none
  backendId := some sos.id

/-- The `formattedIncidents` mapping: `severity` is the lower-cased risk
level with fallback `medium`; `is_read` is derived from the status being
RESOLVED or VERIFIED; `_backendId` is the upstream id. -/
def formatIncident (inc : RawIncident) : FormattedAlert where
  id := inc.id
  message_type := some "INCIDENT"
  sourceType := "INCIDENT"
  user_name := some "Unknown User"
  user_id := inc.user_id
  title := some ("Incident: " ++ inc.type)
  content := inc.description
  category := some inc.type
  description := inc.description
  ability := none
  battery := none
  lat := inc.lat
  lng := inc.lng
  severity := some (jsOrStr (inc.risk_level.map String.toLower) "medium")
  risk_score := inc.risk_score
  risk_level := inc.risk_level
  is_read := inc.status == "RESOLVED" || inc.status == "VERIFIED"
  created_at := inc.created_at
  status := some inc.status
  image_url := inc.image_url
  backendId := some inc.id

/-- Comparator of the sort in `getAllAlertsForAdmin`:
`(a, b) => new Date(b.created_at) - new Date(a.created_at)` puts `a`
before `b` exactly when the timestamp of `a` is at least that of `b`
(descending order, ties left in input order by stability). -/
def createdAtGe (a b : FormattedAlert) : Prop :=
  b.created_at ≤ a.created_at

instance : DecidableRel createdAtGe :=
  fun a b => Nat.decLe b.created_at a.created_at

instance : IsTotal FormattedAlert createdAtGe :=
  ⟨fun a b => Nat.le_total b.created_at a.created_at⟩

instance : IsTrans FormattedAlert createdAtGe :=
  ⟨fun _ _ _ h1 h2 => Nat.le_trans h2 h1⟩

/-- Embeds `allItems.sort((a, b) => new Date(b.created_at) - new
Date(a.created_at))`.  JavaScript `Array.prototype.sort` is stable, so it
is embedded as a stable insertion sort with the descending comparator. -/
def sortByCreatedAtDesc (l : List FormattedAlert) : List FormattedAlert :=
  l.insertionSort createdAtGe

/-- The `by_type` breakdown of the stats object. -/
structure StatsByType where
  SOS : Nat
  INCIDENT : Nat
  GENERAL : Nat
  deriving Repr, DecidableEq

/-- The stats object computed at the end of `getAllAlertsForAdmin`. -/
structure AggStats where
  total : Nat
  unread : Nat
  sos_count : Nat
  incident_count : Nat
  by_type : StatsByType
  deriving Repr, DecidableEq

/-- The value returned by `getAllAlertsForAdmin`:
`{ messages: allItems, stats }`. -/
structure AdminAlertsResult where
  messages : List FormattedAlert
  stats : AggStats
  deriving Repr, DecidableEq

/-- The stats fold of `getAllAlertsForAdmin`, a pure function of the
sorted `allItems` list. -/
def computeStats (allItems : List FormattedAlert) : AggStats where
  total := allItems.length
  unread := (allItems.filter (fun m => !m.is_read)).length
  sos_count := (allItems.filter (fun m => m.message_type == some "SOS")).length
  incident_count := (allItems.filter (fun m => m.message_type == some "INCIDENT")).length
  by_type :=
    { SOS := (allItems.filter (fun m => m.message_type == some "SOS")).length
      INCIDENT := (allItems.filter (fun m => m.message_type == some "INCIDENT")).length
      GENERAL := (allItems.filter (fun m => m.message_type == some "GENERAL")).length }

/-- Embeds `getAllAlertsForAdmin` in `services/api.js`.  The three
arguments are the settled results of the three concurrent fetches
(`Promise.allSettled`): `none` when the fetch rejected or the response
lacked the expected array (that source then contributes `[]`), `some l`
when it fulfilled with the record list `l`.  The function itself is
total: no combination of source outcomes makes it fail. -/
def getAllAlertsForAdmin (messagesRes : Option (List RawMessage))
    (sosRes : Option (List RawSOS)) (incidentsRes : Option (List RawIncident)) :
    AdminAlertsResult :=
  let messages := messagesRes.getD []
  let sosAlerts := sosRes.getD []
  let incidents := incidentsRes.getD []
  let formattedMessages := messages.map formatMessage
  let formattedSOS := sosAlerts.map formatSOS
  let formattedIncidents := incidents.map formatIncident
  let allItems := sortByCreatedAtDesc (formattedMessages ++ formattedSOS ++ formattedIncidents)
  { messages := allItems, stats := computeStats allItems }

/-- The concatenation `[...formattedMessages, ...formattedSOS,
...formattedIncidents]` built by `getAllAlertsForAdmin` before sorting:
the normalized sequences in source order Message, SOS, Incident. -/
def sourceAlerts (messagesRes : Option (List RawMessage)) (sosRes : Option (List RawSOS))
    (incidentsRes : Option (List RawIncident)) : List FormattedAlert :=
  (messagesRes.getD []).map formatMessage ++ (sosRes.getD []).map formatSOS ++
    (incidentsRes.getD []).map formatIncident

/-- The `stats` state of the `AdminActions` component (`useState` at the
top of `AdminActions.jsx`).  `unread` is an integer so that the clamping
`Math.max(prev.unread - 1, 0)` is modelled explicitly rather than by the
truncation built into natural subtraction. -/
structure AdminPageStats where
  total : Nat
  unread : Int
  sos_count : Nat
  incident_count : Nat
  deriving Repr, DecidableEq

/-- The local state of the `AdminActions` component: the `alerts` list and
the `stats` object. -/
structure AdminState where
  alerts : List FormattedAlert
  stats : AdminPageStats
  deriving Repr, DecidableEq

/-- A backend mutation request issued by the `AdminActions` handlers. -/
inductive BackendCall where
  | resolveSOS (id : String)
  | resolveIncident (id : String)
  | markMessageAsRead (id : String)
  deriving Repr, DecidableEq

/-- Number of unread alerts in a list, `filter(a => !a.is_read).length`. -/
def countUnread (l : List FormattedAlert) : Nat :=
  (l.filter (fun a => !a.is_read)).length

/-- Embeds the success path of `handleResolve` in `AdminActions.jsx`.
Returns the new component state together with the backend calls issued:
`resolveSOS` for message_type SOS, `resolveIncident` for INCIDENT, and no
call otherwise.  The local update maps over `alerts`, overriding `is_read`
and `status` of the matching id, and updates the stats by the clamped
decrement `unread: Math.max(prev.unread - 1, 0)`. -/
def handleResolve (alert : FormattedAlert) (st : AdminState) :
    AdminState × List BackendCall :=
  let calls : List BackendCall :=
    if alert.message_type == some "SOS" then [BackendCall.resolveSOS alert.id]
    else if alert.message_type == some "INCIDENT" then [BackendCall.resolveIncident alert.id]
    else []
  let newAlerts := st.alerts.map (fun a =>
    if a.id == alert.id then
      { a with is_read := true
               status := some (if alert.message_type == some "SOS" then "SAFE" else "RESOLVED") }
    else a)
  ({ alerts := newAlerts
     stats := { st.stats with unread := max (st.stats.unread - 1) 0 } }, calls)

/-- Embeds the success path of `handleMarkRead` in `AdminActions.jsx`:
one `markMessageAsRead` backend call, `is_read` overridden to true on the
matching id, and the same clamped ad-hoc decrement of `unread`. -/
def handleMarkRead (alertId : String) (st : AdminState) :
    AdminState × List BackendCall :=
  ({ alerts := st.alerts.map (fun a => if a.id == alertId then { a with is_read := true } else a)
     stats := { st.stats with unread := max (st.stats.unread - 1) 0 } },
   [BackendCall.markMessageAsRead alertId])

/-- Embeds the success branch of `fetchAlerts` in `AdminActions.jsx`
applied when one poll completes with `data`: `setAlerts(alertsList)` and
`setStats` built from `data.stats` with the JavaScript `||` fallbacks
(a zero count falls back to recounting the list).  The previous component
state is not consulted: a completed poll replaces it wholesale. -/
def fetchAlertsComplete (data : AdminAlertsResult) (_st : AdminState) : AdminState :=
  let alertsList := data.messages
  { alerts := alertsList
    stats :=
      { total := jsOrNat data.stats.total alertsList.length
        unread := ((jsOrNat data.stats.unread (countUnread alertsList) : Nat) : Int)
        sos_count := jsOrNat data.stats.by_type.SOS
          ((alertsList.filter (fun a => a.message_type == some "SOS")).length)
        incident_count := jsOrNat data.stats.by_type.INCIDENT
          ((alertsList.filter (fun a => a.message_type == some "INCIDENT")).length) } }

/-- One operator action on the `AdminActions` page (success path). -/
inductive AdminOp where
  | markRead (alertId : String)
  | resolve (alert : FormattedAlert)
  deriving Repr, DecidableEq

/-- State transition of one successful operator action. -/
def applyAdminOp (st : AdminState) : AdminOp → AdminState
  | AdminOp.markRead alertId => (handleMarkRead alertId st).1
  | AdminOp.resolve alert => (handleResolve alert st).1

/-- State after a sequence of successful operator actions. -/
def applyAdminOps (st : AdminState) (ops : List AdminOp) : AdminState :=
  ops.foldl applyAdminOp st

/-- State of the polling loop in `App.jsx`, reduced to what the claims
need: how many aggregation cycles are currently in flight, and the alert
list most recently written by a completed cycle. -/
structure PollState where
  inFlight : Nat
  alerts : List FormattedAlert
  deriving Repr, DecidableEq

/-- An event of the polling loop: the interval (or a manual refresh)
starting `fetchData`, or an in-flight cycle completing with its result. -/
inductive PollEvent where
  | start
  | complete (result : List FormattedAlert)
  deriving Repr, DecidableEq

/-- Embeds the polling behaviour of `App.jsx`: `setInterval` fires
`fetchData` every 10 seconds with no check of any in-flight cycle, and a
completing `fetchData` calls `setAlerts` with its own result
unconditionally — there is no generation counter, so results are applied
in completion order. -/
def pollStep (st : PollState) : PollEvent → PollState
  | PollEvent.start => { st with inFlight := st.inFlight + 1 }
  | PollEvent.complete result => { inFlight := st.inFlight - 1, alerts := result }

/-- Poll state after a sequence of start and completion events. -/
def pollRun (st : PollState) (evs : List PollEvent) : PollState :=
  evs.foldl pollStep st

/-- Stats consistency of an aggregated snapshot, as stated by the spec:
total counts the alerts, unread counts the alerts not read, and the three
by_type buckets partition the total. -/
abbrev snapshotConsistent (r : AdminAlertsResult) : Prop :=
  r.stats.total = r.messages.length ∧
  r.stats.unread = countUnread r.messages ∧
  r.stats.by_type.SOS + r.stats.by_type.INCIDENT + r.stats.by_type.GENERAL = r.stats.total

/-- Stats consistency of the `AdminActions` component state. -/
abbrev adminConsistent (st : AdminState) : Prop :=
  st.stats.total = st.alerts.length ∧
  st.stats.unread = ((countUnread st.alerts : Nat) : Int)

/-- A raw message with every contract field populated and not yet read. -/
def msgFull : RawMessage where
  id := "m1"
  user_id := "u1"
  user_name := some "Alice"
  message_type := some "GENERAL"
  title := some "Hello"
  content := some "Hello there"
  is_read := some false
  created_at := 10

/-- A raw message whose message_type is outside SOS, INCIDENT, GENERAL. -/
def msgOther : RawMessage where
  id := "m2"
  user_id := "u2"
  user_name := none
  message_type := some "OTHER"
  title := none
  content := none
  is_read := some false
  created_at := 7

/-- The raw SOS record of the spec scenario: `{id: s1, status: NEED_HELP,
ability: BLIND}`. -/
def sosNeedHelp : RawSOS where
  id := "s1"
  user_id := "u3"
  ability := some "BLIND"
  lat := some 10
  lng := some 20
  battery := some 80
  status := "NEED_HELP"
  created_at := 9

/-- A raw SOS record that is already resolved (status SAFE). -/
def sosSafe : RawSOS where
  id := "s2"
  user_id := "u3"
  ability := some "BLIND"
  lat := none
  lng := none
  battery := none
  status := "SAFE"
  created_at := 3

/-- A raw incident with status VERIFIED: its normalization is read
(is_read true) but its status is neither SAFE nor RESOLVED. -/
def incVerified : RawIncident where
  id := "i1"
  user_id := "u4"
  type := "FIRE"
  description := some "smoke"
  lat := none
  lng := none
  risk_level := some "HIGH"
  risk_score := some 80
  status := "VERIFIED"
  image_url := none
  created_at := 4

/-- A raw incident that is still active. -/
def incActive : RawIncident where
  id := "i2"
  user_id := "u5"
  type := "FLOOD"
  description := some "water"
  lat := none
  lng := none
  risk_level := none
  risk_score := none
  status := "ACTIVE"
  image_url := none
  created_at := 1

/-- When every element carries one of the three recognized message types,
the three by_type filters partition the list. -/
theorem length_filter_by_type (l : List FormattedAlert)
    (h : ∀ x ∈ l, x.message_type = some "SOS" ∨ x.message_type = some "INCIDENT" ∨
      x.message_type = some "GENERAL") :
    (l.filter (fun m => m.message_type == some "SOS")).length +
      (l.filter (fun m => m.message_type == some "INCIDENT")).length +
      (l.filter (fun m => m.message_type == some "GENERAL")).length = l.length := by
  induction l with
  | nil => rfl
  | cons a l ih =>
    have ha := h a (List.mem_cons_self a l)
    have ih2 := ih (fun x hx => h x (List.mem_cons_of_mem a hx))
    rcases ha with h1 | h1 | h1
    · have pS : (a.message_type == some "SOS") = true := by rw [h1]; rfl
      have pI : (a.message_type == some "INCIDENT") = false := by rw [h1]; rfl
      have pG : (a.message_type == some "GENERAL") = false := by rw [h1]; rfl
      simp [List.filter_cons, pS, pI, pG]; omega
    · have pS : (a.message_type == some "SOS") = false := by rw [h1]; rfl
      have pI : (a.message_type == some "INCIDENT") = true := by rw [h1]; rfl
      have pG : (a.message_type == some "GENERAL") = false := by rw [h1]; rfl
      simp [List.filter_cons, pS, pI, pG]; omega
    · have pS : (a.message_type == some "SOS") = false := by rw [h1]; rfl
      have pI : (a.message_type == some "INCIDENT") = false := by rw [h1]; rfl
      have pG : (a.message_type == some "GENERAL") = true := by rw [h1]; rfl
      simp [List.filter_cons, pS, pI, pG]; omega

/-- C1 counterexample: a message whose message_type is OTHER is counted in
total but in none of the three by_type buckets, so the by_type sum falls
short of the total and the snapshot is not stats-consistent. -/
theorem getAllAlertsForAdmin_stats_inconsistent_other_type :
    ¬ snapshotConsistent (getAllAlertsForAdmin (some [msgOther]) none none) := by
  decide

/-- C1 amended: every aggregated snapshot has total equal to the alert
count and unread equal to the count of alerts not read; the by_type sum
equals the total provided every raw message carries one of the three
recognized message types (SOS and incident records always do). -/
theorem getAllAlertsForAdmin_stats_consistent (m : Option (List RawMessage))
    (s : Option (List RawSOS)) (i : Option (List RawIncident))
    (h : ∀ msg ∈ m.getD [], msg.message_type = some "SOS" ∨
      msg.message_type = some "INCIDENT" ∨ msg.message_type = some "GENERAL") :
    snapshotConsistent (getAllAlertsForAdmin m s i) := by
  refine ⟨rfl, rfl, ?_⟩
  apply length_filter_by_type
  intro x hx
  have hx2 : x ∈ (m.getD []).map formatMessage ++ (s.getD []).map formatSOS ++
      (i.getD []).map formatIncident := (List.mem_insertionSort createdAtGe).mp hx
  rcases List.mem_append.mp hx2 with h12 | h3
  · rcases List.mem_append.mp h12 with hm | hs
    · obtain ⟨msg, hmsg, rfl⟩ := List.mem_map.mp hm
      simpa [formatMessage] using h msg hmsg
    · obtain ⟨sos, _, rfl⟩ := List.mem_map.mp hs
      left; rfl
  · obtain ⟨inc, _, rfl⟩ := List.mem_map.mp h3
    right; left; rfl

/-- C1 witness: a concrete snapshot with one record per source, each of a
recognized type, is stats-consistent. -/
theorem getAllAlertsForAdmin_stats_consistent_witness :
    snapshotConsistent
      (getAllAlertsForAdmin (some [msgFull]) (some [sosNeedHelp]) (some [incVerified])) :=
  getAllAlertsForAdmin_stats_consistent _ _ _ (by decide)

/-- C5: aggregation is a total function of the three settled outcomes (it
never fails), a failing source contributes an empty collection, the
snapshot holds exactly the normalized records of the sources that
succeeded — in particular when only the SOS fetch fails it holds exactly
the Message- and Incident-derived alerts — and when all three sources fail
the result is the empty snapshot with total zero. -/
theorem getAllAlertsForAdmin_fail_soft :
    (∀ (m : Option (List RawMessage)) (s : Option (List RawSOS))
        (i : Option (List RawIncident)),
      (getAllAlertsForAdmin m s i).messages.Perm
        ((m.getD []).map formatMessage ++ (s.getD []).map formatSOS ++
          (i.getD []).map formatIncident)) ∧
    (∀ (m : List RawMessage) (i : List RawIncident),
      (getAllAlertsForAdmin (some m) none (some i)).messages.Perm
        (m.map formatMessage ++ i.map formatIncident)) ∧
    (getAllAlertsForAdmin none none none).messages = [] ∧
    (getAllAlertsForAdmin none none none).stats.total = 0 := by
  refine ⟨fun m s i => List.perm_insertionSort createdAtGe _, fun m i => ?_, rfl, rfl⟩
  have h := List.perm_insertionSort createdAtGe
    (List.map formatMessage m ++ [] ++ List.map formatIncident i)
  simp only [List.append_nil] at h
  simp [getAllAlertsForAdmin, sortByCreatedAtDesc]
  exact h

/-- Inserting an alert into a list with the descending comparator keeps
every alert of any fixed timestamp in its relative position: the elements
skipped over have strictly larger timestamps. -/
theorem filter_created_orderedInsert (t : Nat) (a : FormattedAlert)
    (l : List FormattedAlert) :
    (l.orderedInsert createdAtGe a).filter (fun x => x.created_at == t) =
      if a.created_at = t then a :: l.filter (fun x => x.created_at == t)
      else l.filter (fun x => x.created_at == t) := by
  induction l with
  | nil =>
    by_cases hat : a.created_at = t <;> simp [List.orderedInsert, hat]
  | cons b l ih =>
    by_cases hab : createdAtGe a b
    · by_cases hat : a.created_at = t <;>
        simp [List.orderedInsert, hab, List.filter_cons, hat]
    · have hlt : a.created_at < b.created_at := Nat.lt_of_not_le hab
      by_cases hat : a.created_at = t
      · have hbt : b.created_at ≠ t := by omega
        simp [List.orderedInsert, hab, List.filter_cons, hat, hbt, ih]
      · simp [List.orderedInsert, hab, List.filter_cons, hat, ih]

/-- Stability of the embedded sort: for every timestamp, the alerts
carrying that timestamp appear in the sorted output in the same order as
in the input, so ties keep the source order Message, SOS, Incident. -/
theorem filter_created_insertionSort (t : Nat) (l : List FormattedAlert) :
    (l.insertionSort createdAtGe).filter (fun x => x.created_at == t) =
      l.filter (fun x => x.created_at == t) := by
  induction l with
  | nil => rfl
  | cons a l ih =>
    rw [List.insertionSort, filter_created_orderedInsert, ih]
    by_cases hat : a.created_at = t <;> simp [List.filter_cons, hat]

/-- C9: the aggregated alert sequence is a permutation of the
concatenation of the three normalized sequences, sorted descending by
created_at; with pairwise distinct timestamps it is strictly descending;
and alerts with equal timestamps keep the concatenation order. -/
theorem getAllAlertsForAdmin_sorted (m : Option (List RawMessage))
    (s : Option (List RawSOS)) (i : Option (List RawIncident)) :
    (getAllAlertsForAdmin m s i).messages.Perm (sourceAlerts m s i) ∧
    (getAllAlertsForAdmin m s i).messages.Pairwise
      (fun a b => b.created_at ≤ a.created_at) ∧
    ((sourceAlerts m s i).Pairwise (fun a b => a.created_at ≠ b.created_at) →
      (getAllAlertsForAdmin m s i).messages.Pairwise
        (fun a b => b.created_at < a.created_at)) ∧
    (∀ t, (getAllAlertsForAdmin m s i).messages.filter (fun x => x.created_at == t) =
      (sourceAlerts m s i).filter (fun x => x.created_at == t)) := by
  refine ⟨List.perm_insertionSort createdAtGe _,
    List.sorted_insertionSort createdAtGe _, ?_, ?_⟩
  · intro hne
    have hperm : (getAllAlertsForAdmin m s i).messages.Perm (sourceAlerts m s i) :=
      List.perm_insertionSort createdAtGe _
    have hne2 : (getAllAlertsForAdmin m s i).messages.Pairwise
        (fun a b => a.created_at ≠ b.created_at) :=
      (hperm.pairwise_iff (fun h => Ne.symm h)).mpr hne
    have hsorted : (getAllAlertsForAdmin m s i).messages.Pairwise createdAtGe :=
      List.sorted_insertionSort createdAtGe _
    exact (hsorted.and hne2).imp fun h => Nat.lt_of_le_of_ne h.1 (Ne.symm h.2)
  · intro t
    exact filter_created_insertionSort t (sourceAlerts m s i)

/-- C9 witness: on one record per source with distinct timestamps the
aggregated sequence is strictly descending by created_at. -/
theorem getAllAlertsForAdmin_sorted_witness :
    (getAllAlertsForAdmin (some [msgFull]) (some [sosNeedHelp])
      (some [incVerified])).messages.Pairwise
      (fun a b => b.created_at < a.created_at) :=
  (getAllAlertsForAdmin_sorted (some [msgFull]) (some [sosNeedHelp])
    (some [incVerified])).2.2.1 (by decide)

/-- C7: for every raw SOS record with a nonempty ability, the SOS adapter
yields alertKind SOS, severity critical, isRead true exactly when the
upstream status is SAFE, and the synthesized title. -/
theorem formatSOS_normalization (sos : RawSOS) (a : String)
    (ha : sos.ability = some a) (hne : a ≠ "") :
    (formatSOS sos).message_type = some "SOS" ∧
    (formatSOS sos).severity = some "critical" ∧
    ((formatSOS sos).is_read = true ↔ sos.status = "SAFE") ∧
    (formatSOS sos).title = some ("SOS Alert (" ++ a ++ ")") := by
  refine ⟨rfl, rfl, ?_, ?_⟩
  · simp [formatSOS]
  · simp [formatSOS, jsOrStr, ha, hne]

/-- C7 witness: the spec scenario record normalizes as claimed, with
isRead false since NEED_HELP is not SAFE. -/
theorem formatSOS_normalization_witness :
    ((formatSOS sosNeedHelp).message_type = some "SOS" ∧
      (formatSOS sosNeedHelp).severity = some "critical" ∧
      ((formatSOS sosNeedHelp).is_read = true ↔ sosNeedHelp.status = "SAFE") ∧
      (formatSOS sosNeedHelp).title = some ("SOS Alert (" ++ "BLIND" ++ ")")) ∧
    (formatSOS sosNeedHelp).is_read = false :=
  ⟨formatSOS_normalization sosNeedHelp "BLIND" rfl (by decide), by decide⟩

/-- C8 counterexample: on a raw message with every contract field present,
the Message adapter still leaves the required canonical fields severity,
status and backendId undefined (the spread only copies fields a raw
message has), so not every adapter output passes full-field validation. -/
theorem formatMessage_missing_fields :
    (formatMessage msgFull).severity = none ∧
    (formatMessage msgFull).status = none ∧
    (formatMessage msgFull).backendId = none :=
  ⟨rfl, rfl, rfl⟩

/-- An override that marks exactly the alerts of one id read removes from
the unread count exactly the unread alerts carrying that id. -/
theorem countUnread_map_override (g : FormattedAlert → FormattedAlert) (tid : String)
    (hg1 : ∀ a, a.id = tid → (g a).is_read = true)
    (hg2 : ∀ a, a.id ≠ tid → g a = a) (l : List FormattedAlert) :
    countUnread (l.map g) +
      (l.filter (fun a => a.id == tid && !a.is_read)).length = countUnread l := by
  induction l with
  | nil => rfl
  | cons a l ih =>
    by_cases hid : a.id = tid
    · have h1 := hg1 a hid
      by_cases hr : a.is_read = true <;>
        simp [countUnread, List.filter_cons, hid, h1, hr] at ih ⊢ <;> omega
    · have h2 := hg2 a hid
      by_cases hr : a.is_read = true <;>
        simp [countUnread, List.filter_cons, h2, hid, hr] at ih ⊢ <;> omega

/-- A stats-consistent state whose target alert m1 is present once and
unread (plus one already-resolved SOS alert). -/
def stSOSRead : AdminState where
  alerts := [formatMessage msgFull, formatSOS sosSafe]
  stats := { total := 2, unread := 1, sos_count := 1, incident_count := 0 }

/-- A stats-consistent state holding one unread message and one VERIFIED
incident (already read but with status neither SAFE nor RESOLVED). -/
def stResolved : AdminState where
  alerts := [formatMessage msgFull, formatIncident incVerified]
  stats := { total := 2, unread := 1, sos_count := 0, incident_count := 1 }

/-- C2 counterexample: resolving the already-read VERIFIED incident in a
consistent state leaves the unread alert count at one but ad-hoc
decrements stats.unread to zero, so the effective snapshot is no longer
stats-consistent. -/
theorem handleResolve_breaks_consistency :
    adminConsistent stResolved ∧
    ¬ adminConsistent (handleResolve (formatIncident incVerified) stResolved).1 := by
  decide

/-- C2 amended: on success the alert list has the target is_read/status
overridden, but stats are updated by the clamped ad-hoc decrement of
unread rather than recomputed; the state stays stats-consistent exactly
when the decrement matches the recount, that is when the mutated id
matches exactly one unread alert. -/
theorem handleResolve_consistency (alert : FormattedAlert) (st : AdminState)
    (hcons : adminConsistent st)
    (hone : (st.alerts.filter (fun a => a.id == alert.id && !a.is_read)).length = 1) :
    (handleResolve alert st).1.alerts = st.alerts.map (fun a =>
      if a.id == alert.id then
        { a with is_read := true
                 status := some (if alert.message_type == some "SOS" then "SAFE"
                   else "RESOLVED") }
      else a) ∧
    adminConsistent (handleResolve alert st).1 ∧
    adminConsistent (handleMarkRead alert.id st).1 := by
  obtain ⟨htot, hunr⟩ := hcons
  have hres := countUnread_map_override (fun a =>
      if a.id == alert.id then
        { a with is_read := true
                 status := some (if alert.message_type == some "SOS" then "SAFE"
                   else "RESOLVED") }
      else a) alert.id
    (by intro a ha; simp [ha]) (by intro a ha; simp [ha]) st.alerts
  have hmark := countUnread_map_override
    (fun a => if a.id == alert.id then { a with is_read := true } else a) alert.id
    (by intro a ha; simp [ha]) (by intro a ha; simp [ha]) st.alerts
  rw [hone] at hres hmark
  refine ⟨rfl, ⟨?_, ?_⟩, ⟨?_, ?_⟩⟩
  · simpa [handleResolve] using htot
  · show max (st.stats.unread - 1) 0 = ((countUnread (st.alerts.map _) : Nat) : Int)
    rw [hunr]
    omega
  · simpa [handleMarkRead] using htot
  · show max (st.stats.unread - 1) 0 = ((countUnread (st.alerts.map _) : Nat) : Int)
    rw [hunr]
    omega

/-- C2 witness: resolving the single unread alert of a concrete
consistent state keeps the state stats-consistent. -/
theorem handleResolve_consistency_witness :
    adminConsistent (handleResolve (formatMessage msgFull) stSOSRead).1 :=
  (handleResolve_consistency (formatMessage msgFull) stSOSRead (by decide) (by decide)).2.1

/-- C4 counterexample: resolving an alert that is already resolved
(status SAFE, is_read true) is not a no-op: the backend resolve call is
issued again and the stats change (unread is decremented once more). -/
theorem handleResolve_not_idempotent :
    (handleResolve (formatSOS sosSafe) stSOSRead).2 = [BackendCall.resolveSOS "s2"] ∧
    (handleResolve (formatSOS sosSafe) stSOSRead).1.stats ≠ stSOSRead.stats := by
  decide

/-- C4 amended: resolving an already-resolved SOS alert leaves the alert
sequence unchanged (the override rewrites the values already present) and
raises no error, but it does issue a duplicate backend resolve call and
applies the clamped unread decrement once more. -/
theorem handleResolve_already_resolved (alert : FormattedAlert) (st : AdminState)
    (hsos : alert.message_type = some "SOS")
    (hres : ∀ a ∈ st.alerts, a.id = alert.id → a.is_read = true ∧ a.status = some "SAFE") :
    (handleResolve alert st).1.alerts = st.alerts ∧
    (handleResolve alert st).2 = [BackendCall.resolveSOS alert.id] ∧
    (handleResolve alert st).1.stats =
      { st.stats with unread := max (st.stats.unread - 1) 0 } := by
  refine ⟨?_, by simp [handleResolve, hsos], rfl⟩
  show st.alerts.map _ = st.alerts
  have hcongr : ∀ a ∈ st.alerts,
      (if a.id == alert.id then
        { a with is_read := true
                 status := some (if alert.message_type == some "SOS" then "SAFE"
                   else "RESOLVED") }
      else a) = a := by
    intro a ha
    by_cases hid : a.id = alert.id
    · obtain ⟨h1, h2⟩ := hres a ha hid
      cases a
      simp_all [hsos]
    · simp [hid]
  calc st.alerts.map _ = st.alerts.map id := List.map_congr_left hcongr
    _ = st.alerts := List.map_id st.alerts

/-- C4 witness: the amended behaviour at the concrete already-resolved
SOS alert. -/
theorem handleResolve_already_resolved_witness :
    (handleResolve (formatSOS sosSafe) stSOSRead).1.alerts = stSOSRead.alerts :=
  (handleResolve_already_resolved (formatSOS sosSafe) stSOSRead rfl (by decide)).1

/-- C10: over every sequence of successful markRead and resolve
operations from a state with nonnegative unread, the clamped decrement
keeps stats.unread nonnegative. -/
theorem applyAdminOps_unread_nonneg (st : AdminState) (ops : List AdminOp)
    (h : 0 ≤ st.stats.unread) : 0 ≤ (applyAdminOps st ops).stats.unread := by
  induction ops generalizing st with
  | nil => exact h
  | cons op ops ih =>
    have hstep : 0 ≤ (applyAdminOp st op).stats.unread := by
      cases op <;> exact le_max_right _ _
    simpa [applyAdminOps] using ih (applyAdminOp st op) hstep

/-- C10 witness: repeatedly mutating the same already-read alert never
drives unread negative. -/
theorem applyAdminOps_unread_nonneg_witness :
    0 ≤ (applyAdminOps stSOSRead
      [AdminOp.resolve (formatSOS sosSafe), AdminOp.resolve (formatSOS sosSafe),
        AdminOp.markRead "s2"]).stats.unread :=
  applyAdminOps_unread_nonneg stSOSRead _ (by decide)

/-- The initial state of the `AdminActions` component. -/
def adminInit : AdminState where
  alerts := []
  stats := { total := 0, unread := 0, sos_count := 0, incident_count := 0 }

/-- One aggregation result whose raw message m1 is still unread. -/
def pollDataUnread : AdminAlertsResult :=
  getAllAlertsForAdmin (some [msgFull]) none none

/-- State after the first poll completes. -/
def stAfterPoll : AdminState := fetchAlertsComplete pollDataUnread adminInit

/-- State after the operator optimistically marks m1 read. -/
def stAfterMark : AdminState := (handleMarkRead "m1" stAfterPoll).1

/-- State after a second poll completes whose raw data still shows m1
unread. -/
def stAfterSecondPoll : AdminState := fetchAlertsComplete pollDataUnread stAfterMark

/-- C3 counterexample: after markRead succeeds the state shows m1 read,
but a subsequent completed poll whose raw source data still shows m1
unread makes the state show it unread again — the optimistic change is
erased, there being no pending-mutation replay. -/
theorem fetchAlerts_erases_optimistic :
    (stAfterMark.alerts.filter (fun a => a.id == "m1" && !a.is_read)).length = 0 ∧
    (stAfterSecondPoll.alerts.filter (fun a => a.id == "m1" && !a.is_read)).length = 1 := by
  decide

/-- C3 amended: a completed poll replaces the component state wholesale
with the fetched snapshot, independently of any prior optimistic change:
an unacknowledged mark-read survives only until the next completed poll,
and once the canonical data shows the alert read the state does too. -/
theorem fetchAlertsComplete_overwrites (data : AdminAlertsResult) (st st2 : AdminState) :
    fetchAlertsComplete data st = fetchAlertsComplete data st2 ∧
    (fetchAlertsComplete data st).alerts = data.messages :=
  ⟨rfl, rfl⟩

/-- Initial poll state. -/
def pollInit : PollState where
  inFlight := 0
  alerts := []

/-- Result list of the earlier-started aggregation cycle. -/
def cycleA : List FormattedAlert := [formatMessage msgFull]

/-- Result list of the later-started aggregation cycle. -/
def cycleB : List FormattedAlert := []

/-- C6 counterexample: two cycles can be in flight at once (the interval
fires regardless of loading state), and when the later-started cycle B
completes before the delayed earlier cycle A, the result of A, arriving
last, overwrites B instead of being discarded. -/
theorem pollRun_out_of_order :
    (pollRun pollInit [PollEvent.start, PollEvent.start]).inFlight = 2 ∧
    (pollRun pollInit [PollEvent.start, PollEvent.start, PollEvent.complete cycleB,
      PollEvent.complete cycleA]).alerts = cycleA ∧
    cycleA ≠ cycleB := by
  decide

/-- C6 amended: polls are started with no in-flight guard and every
completion is applied unconditionally, so after any event sequence the
state holds the result of whichever cycle completed last, with no
generation counter to discard stale completions. -/
theorem pollStep_no_generation (st : PollState) (evs : List PollEvent)
    (res : List FormattedAlert) :
    (pollStep st PollEvent.start).inFlight = st.inFlight + 1 ∧
    (pollRun st (evs ++ [PollEvent.complete res])).alerts = res := by
  refine ⟨rfl, ?_⟩
  show (List.foldl pollStep st (evs ++ [PollEvent.complete res])).alerts = res
  rw [List.foldl_append]
  rfl

/-- C8 amended: the SOS and Incident adapters populate title, severity,
status and backendId (with id and backendId taken from the upstream
identifier) for every input; the Message adapter keeps the upstream id and
coerces is_read, but leaves severity, status and backendId undefined. -/
theorem adapter_field_population (msg : RawMessage) (sos : RawSOS) (inc : RawIncident) :
    ((formatSOS sos).id = sos.id ∧ (formatSOS sos).backendId = some sos.id ∧
      (formatSOS sos).title.isSome = true ∧ (formatSOS sos).content.isSome = true ∧
      (formatSOS sos).severity.isSome = true ∧ (formatSOS sos).status.isSome = true) ∧
    ((formatIncident inc).id = inc.id ∧ (formatIncident inc).backendId = some inc.id ∧
      (formatIncident inc).title.isSome = true ∧
      (formatIncident inc).severity.isSome = true ∧
      (formatIncident inc).status.isSome = true) ∧
    ((formatMessage msg).id = msg.id ∧ (formatMessage msg).is_read = jsBool msg.is_read ∧
      (formatMessage msg).severity = none ∧ (formatMessage msg).status = none ∧
      (formatMessage msg).backendId = none) :=
  ⟨⟨rfl, rfl, rfl, rfl, rfl, rfl⟩, ⟨rfl, rfl, rfl, rfl, rfl⟩, rfl, rfl, rfl, rfl, rfl⟩
